import Mathlib

/-!
# Verification of `src/libs/freelan/src/curl.cpp`

Shallow embedding of the curl adapter layer of freelan:

* `curl_list` — the header list wrapping an engine-native `curl_slist` chain.
* `curl` outcome accessors — response code, content lengths, content type.
* `curl_multi` — the multiplexer owning the raw-pointer → association map.
* `curl_multi_asio` — the async adapter: handler map, socket map, timer,
  serialized strand, and the completion-drain step `check_info`.

Raw `CURL*` easy-handle pointers are modelled as `Nat`; a
`boost::shared_ptr<curl>` is identified with the raw pointer it wraps
(the code itself keys every map by that pointer value). Completion
callbacks (`connection_complete_callback`, a possibly-empty
`boost::function`) are modelled as `Option Nat`: `none` is the empty
function object, `some c` a callback with identity `c`. Native socket
descriptors are `Int` (so the engine sentinel `CURL_SOCKET_BAD = -1`
is representable).

The transfer engine (libcurl) is external to the repository; the engine
primitives the adapter calls (`curl_slist_append`, `curl_multi_add_handle`,
`curl_easy_getinfo`) are modelled from the spec's description of the
engine boundary, and each such definition is marked in its doc comment.
-/

namespace Freelan

/-! ## Association-list maps

`std::map` state is modelled as a duplicate-free association list; only
lookup / erase / insert-or-assign are needed, and the claims never depend
on key ordering. -/

/-- `std::map::find` followed by reading the mapped value. -/
def lookupKV {α β : Type} [DecidableEq α] : List (α × β) → α → Option β
  | [], _ => none
  | (k', v') :: t, k => if k = k' then some v' else lookupKV t k

/-- `std::map::erase(key)`: removes the entry for `key` if present. -/
def eraseKV {α β : Type} [DecidableEq α] : List (α × β) → α → List (α × β)
  | [], _ => []
  | (k', v') :: t, k => if k = k' then t else (k', v') :: eraseKV t k

/-- `std::map::operator[] = value`: replaces the mapped value if the key is
present, otherwise inserts a new entry. -/
def insertKV {α β : Type} [DecidableEq α] : List (α × β) → α → β → List (α × β)
  | [], k, v => [(k, v)]
  | (k', v') :: t, k, v => if k = k' then (k, v) :: t else (k', v') :: insertKV t k v

@[simp] theorem lookupKV_nil {α β : Type} [DecidableEq α] (k : α) :
    lookupKV ([] : List (α × β)) k = none := rfl

@[simp] theorem lookupKV_cons {α β : Type} [DecidableEq α] (k' : α) (v' : β)
    (t : List (α × β)) (k : α) :
    lookupKV ((k', v') :: t) k = if k = k' then some v' else lookupKV t k := rfl

/-! ## Header list (`curl_list`)

`curl_list` owns an engine-native `curl_slist` chain through `m_slist`,
a smart pointer constructed with the deleter
`[](curl_slist* p){ if (p) { curl_slist_free_all(p); } }` and whose raw
pointer is exposed by `raw()`. The stored pointer is modelled by
`SlistState`: `live chain` when it is `NULL`/a valid chain whose
traversal from the head yields `chain`, and `dangling` once the chain it
points to has been freed. `m_slist.reset(p)` stores `p` and then runs
the deleter on the previously stored pointer — there is no self-reset
check and no prior `release()` in `curl_list::append`, so resetting to
the pointer already stored frees the chain and leaves the stored pointer
dangling. Operations on a dangling pointer (freeing it again, or handing
it to the engine) are undefined behavior, modelled as `none`. -/

/-- The stored `m_slist` pointer: `NULL` or a valid chain traversing to
`chain`, or a pointer into freed memory. -/
inductive SlistState
  | live (chain : List String)
  | dangling
deriving DecidableEq, Repr

/-- What `curl_slist_append` hands back, keeping track of pointer
identity: `failed` is a `NULL` return with the chain intact; `sameHead`
is the head pointer it was given (the chain was non-empty, the new node
went at the tail); `freshHead` is the newly allocated node (the chain
was empty/`NULL`). -/
inductive SlistAppendResult
  | failed
  | sameHead (chain : List String)
  | freshHead (chain : List String)
deriving DecidableEq, Repr

/-- Modelled from the spec of the engine boundary: `curl_slist_append`
allocates a node for `v` and appends it at the tail of the chain,
returning the resulting chain's head pointer — the very pointer it was
given when the chain was non-empty, the fresh node when it was `NULL` —
or `NULL` on allocation failure, leaving the chain intact. `alloc_ok`
is the allocation oracle for this call. -/
def curl_slist_append (alloc_ok : Bool) (chain : List String) (v : String) :
    SlistAppendResult :=
  if alloc_ok then
    match chain with
    | [] => SlistAppendResult.freshHead [v]
    | _ :: _ => SlistAppendResult.sameHead (chain ++ [v])
  else SlistAppendResult.failed

namespace curl_list

/-- `curl_list::append`: calls `curl_slist_append` on the stored
pointer (undefined behavior if that pointer dangles); if it returns
`NULL`, throws (the `Bool` is `true`) with `m_slist` untouched;
otherwise `m_slist.reset(new_slist)`. When the chain was empty the old
stored pointer is `NULL` and nothing is freed, so the list is the new
one-node chain; when it was non-empty, `new_slist` equals the stored
head, so the reset's deleter frees the just-extended chain and the
stored pointer dangles. -/
def append (alloc_ok : Bool) (st : SlistState) (v : String) :
    Option (SlistState × Bool) :=
  match st with
  | SlistState.dangling => none
  | SlistState.live chain =>
      match curl_slist_append alloc_ok chain v with
      | SlistAppendResult.failed => some (SlistState.live chain, true)
      | SlistAppendResult.freshHead c => some (SlistState.live c, false)
      | SlistAppendResult.sameHead _ => some (SlistState.dangling, false)

/-- `curl_list::reset`: `m_slist.reset()` frees the stored chain (when
live) and stores `NULL`; freeing an already-freed pointer is undefined
behavior. -/
def reset (st : SlistState) : Option SlistState :=
  match st with
  | SlistState.live _ => some (SlistState.live [])
  | SlistState.dangling => none

end curl_list

/-! ## Transfer-handle outcome accessors (`curl`)

`curl_easy_getinfo` reads are modelled from the spec: for the outcome
info tags used here the engine always reports success (`CURLE_OK = 0`)
together with its current info value, translating "no info" into the
engine's own sentinel (negative length, `NULL` content type). -/

/-- The engine info state a `curl` handle can be queried about. The
declared content lengths are `double` in the engine; only their sign and
(for non-negative values) their integral value matter here, so they are
modelled as `Int`. `content_type` is the engine's `char*`: `none` for
`NULL`. -/
structure EngineInfo where
  response_code : Int
  content_length_download : Int
  content_length_upload : Int
  content_type : Option String
deriving DecidableEq, Repr

/-- `throw_if_curl_error`: throws a `runtime_error` when the engine code
is not `CURLE_OK` (0). -/
def throw_if_curl_error (errorcode : Nat) : Except String Unit :=
  if errorcode ≠ 0 then Except.error "curl error" else Except.ok ()

/-- Modelled from the spec: `curl_easy_getinfo` for the outcome tags
(response code, content lengths, content type) always succeeds, returning
`CURLE_OK` (0) and the engine's current info value. -/
def curl_easy_getinfo_code (_info : EngineInfo) : Nat := 0

namespace curl

/-- `curl::get_response_code`. -/
def get_response_code (info : EngineInfo) : Except String Int := do
  let _ ← throw_if_curl_error (curl_easy_getinfo_code info)
  return info.response_code

/-- `curl::get_content_length_download`: `-1` when the engine reports a
negative (unknown/unbounded) length. -/
def get_content_length_download (info : EngineInfo) : Except String Int := do
  let _ ← throw_if_curl_error (curl_easy_getinfo_code info)
  return if info.content_length_download ≥ 0 then info.content_length_download else -1

/-- `curl::get_content_length_upload`: `-1` when the engine reports a
negative (unknown/unbounded) length. -/
def get_content_length_upload (info : EngineInfo) : Except String Int := do
  let _ ← throw_if_curl_error (curl_easy_getinfo_code info)
  return if info.content_length_upload ≥ 0 then info.content_length_upload else -1

/-- `curl::get_content_type`: the empty string when the engine reports a
`NULL` content type. -/
def get_content_type (info : EngineInfo) : Except String String := do
  let _ ← throw_if_curl_error (curl_easy_getinfo_code info)
  return match info.content_type with
  | some s => s
  | none => ""

end curl

/-! ## Multiplexer (`curl_multi`) and async adapter (`curl_multi_asio`)

The association map `m_associations : map<CURL*, unique_ptr<curl_association>>`
keys each association by the handle's raw pointer; the association record
holds the `shared_ptr<curl>` whose raw pointer is the key, so the map is
modelled as the list of registered raw pointers, with `remove_handle`
returning the key it found (the handle). Constructing an association
calls `curl_multi_add_handle` on the engine; destroying it calls
`curl_multi_remove_handle`, so the engine's registered set and the map's
key set coincide and are modelled as one list. -/

/-- A raw `CURL*` easy-handle pointer (also the identity of the
`shared_ptr<curl>` wrapping it). -/
abbrev HandlePtr := Nat

/-- Identity of a non-empty completion callback. -/
abbrev HandlerId := Nat

/-- The address-family tag a reactor socket was created with. -/
inductive SockProto
  | v4
  | v6
deriving DecidableEq, Repr

/-- A task posted to the adapter's strand (`m_strand.post`). Only the
tasks the claims mention are modelled: the posted `timer_callback`
progress run and the lambda posted by `async_clear`. -/
inductive StrandTask
  | progress
  | runClear (h : Option HandlerId)
deriving DecidableEq, Repr

/-- An engine call performed by an adapter duty, in order. -/
inductive EngineCall
  | socketAction (fd : Int) (ev_bitmask : Nat)
  | drainInfo
deriving DecidableEq, Repr

/-- `CURL_SOCKET_BAD`: the engine's bad-socket sentinel (`-1`). -/
def CURL_SOCKET_BAD : Int := -1

/-- `CURL_SOCKET_TIMEOUT`: the reserved "timer fired" socket id, defined
by the engine as `CURL_SOCKET_BAD`. -/
def CURL_SOCKET_TIMEOUT : Int := CURL_SOCKET_BAD

/-- `CURLSOCKTYPE_IPCXN`: the stream-connection purpose tag (enum value 0). -/
def CURLSOCKTYPE_IPCXN : Nat := 0

/-- `AF_INET` (2). -/
def AF_INET : Nat := 2

/-- `AF_INET6` (10). -/
def AF_INET6 : Nat := 10

/-- State of a `curl_multi_asio` instance:
* `associations` — the keys of `curl_multi::m_associations` (one
  association record per registered raw handle pointer);
* `handler_map` — `m_handler_map : map<shared_ptr<curl>, callback>`,
  keyed by handle pointer, value the possibly-empty completion callback;
* `socket_map` — `m_socket_map : map<curl_socket_t, shared_ptr<tcp::socket>>`,
  the reactor socket recorded by the family it was created with;
* `pending_timer` — the deadline (ms) of the outstanding `m_timer`
  `async_wait`, `none` when no wait is outstanding;
* `strand_tasks` — the tasks posted to `m_strand` not yet run;
* `completions_posted` — the completion callbacks handed to
  `m_io_service.post` by `check_info`, in order. -/
structure AsioState where
  associations : List HandlePtr
  handler_map : List (HandlePtr × Option HandlerId)
  socket_map : List (Int × SockProto)
  pending_timer : Option Int
  strand_tasks : List StrandTask
  completions_posted : List HandlerId
deriving DecidableEq, Repr

/-- The state of a freshly constructed adapter: all maps empty, no timer
armed, nothing posted. -/
def initAsio : AsioState := ⟨[], [], [], none, [], []⟩

namespace curl_multi

/-- Modelled from the spec of the engine boundary: `curl_multi_add_handle`
registers the easy handle with the multi handle, failing with an engine
error code when the handle is already registered there. -/
def curl_multi_add_handle_engine (registered : List HandlePtr) (h : HandlePtr) :
    Except String (List HandlePtr) :=
  if h ∈ registered then Except.error "curl_multi_add_handle: already added"
  else Except.ok (registered ++ [h])

/-- `curl_multi::add_handle`: constructs a `curl_association` (whose
constructor performs the engine registration and throws on an engine
error, before the map assignment takes effect) and stores it under the
handle's raw pointer. -/
def add_handle (associations : List HandlePtr) (h : HandlePtr) :
    Except String (List HandlePtr) :=
  curl_multi_add_handle_engine associations h

/-- `curl_multi::remove_handle`: looks the raw pointer up in
`m_associations`; if found, takes the handle out of the association,
erases the entry (destroying the association unregisters the handle from
the engine) and returns the handle, otherwise returns the null
`shared_ptr`. -/
def remove_handle (associations : List HandlePtr) (p : HandlePtr) :
    List HandlePtr × Option HandlePtr :=
  if p ∈ associations then (associations.erase p, some p)
  else (associations, none)

/-- `curl_multi::clear`: `m_associations.clear()`. -/
def clear (_associations : List HandlePtr) : List HandlePtr := []

end curl_multi

namespace curl_multi_asio

/-- `curl_multi_asio::add_handle`: installs the open/close-socket hooks
on the handle (per-handle engine options, not part of the adapter
state), delegates to `curl_multi::add_handle` (an engine failure there
propagates before the handler map is touched), then records the
completion callback under the handle. -/
def add_handle (s : AsioState) (h : HandlePtr) (handler : Option HandlerId) :
    Except String AsioState :=
  match curl_multi.add_handle s.associations h with
  | Except.error e => Except.error e
  | Except.ok as' =>
      Except.ok { s with
        associations := as'
        handler_map := insertKV s.handler_map h handler }

/-- `curl_multi_asio::remove_handle`: calls `curl_multi::remove_handle`,
erases the returned handle from `m_handler_map`, then clears the four
socket-hook options on `result` via `result->set_option`. When the
pointer was unknown, `result` is the null `shared_ptr` and that
`set_option` call dereferences null — undefined behavior, modelled as
`none` (no normal return). -/
def remove_handle (s : AsioState) (p : HandlePtr) :
    Option (AsioState × HandlePtr) :=
  match curl_multi.remove_handle s.associations p with
  | (as', some h) =>
      some ({ s with associations := as', handler_map := eraseKV s.handler_map h }, h)
  | (_, none) => none

/-- `curl_multi_asio::clear`: `curl_multi::clear()` then clears
`m_handler_map` and `m_socket_map`. Nothing is posted or invoked. -/
def clear (s : AsioState) : AsioState :=
  { s with
    associations := curl_multi.clear s.associations
    handler_map := []
    socket_map := [] }

/-- `curl_multi_asio::async_clear`: posts onto the strand a task that
runs `clear()` and then invokes `handler` if non-empty. -/
def async_clear (s : AsioState) (handler : Option HandlerId) : AsioState :=
  { s with strand_tasks := s.strand_tasks ++ [StrandTask.runClear handler] }

/-- Running the task posted by `async_clear` once the strand dispatches
it: `clear()`, then `handler()` when present (the `onCleared` callback,
not a stored completion callback). -/
def run_clear_task (s : AsioState) (handler : Option HandlerId) :
    AsioState × Option HandlerId :=
  (clear s, handler)

/-- `curl_multi_asio::static_timer_callback`: always cancels `m_timer`
first; for a positive `timeout_ms` arms it again for that many
milliseconds (its expiry runs `timer_callback` through the strand), and
otherwise posts `timer_callback` with a success error code onto the
strand. No engine call is performed inline, so the inline engine-call
trace is `[]`. -/
def static_timer_callback (s : AsioState) (timeout_ms : Int) :
    AsioState × List EngineCall :=
  let s1 := { s with pending_timer := none }
  if timeout_ms > 0 then
    ({ s1 with pending_timer := some timeout_ms }, [])
  else
    ({ s1 with strand_tasks := s1.strand_tasks ++ [StrandTask.progress] }, [])

/-- `curl_multi_asio::timer_callback`, as the sequence of engine calls it
performs: nothing when invoked with a failure code (a cancelled wait),
otherwise `socket_action(CURL_SOCKET_TIMEOUT, 0, …)` followed by
`check_info()`. -/
def timer_callback (ec_failed : Bool) : List EngineCall :=
  if ec_failed then []
  else [EngineCall.socketAction CURL_SOCKET_TIMEOUT 0, EngineCall.drainInfo]

/-- `curl_multi_asio::open_socket_callback`: for a stream-connection
purpose with an IPv4/IPv6 family, creates a reactor-owned TCP socket of
that family (the reactor assigns it the fresh native descriptor
`fresh_fd`), records it in `m_socket_map` under that descriptor and
returns the descriptor; otherwise returns `CURL_SOCKET_BAD` untouched
state. -/
def open_socket_callback (s : AsioState) (purpose : Nat) (family : Nat)
    (fresh_fd : Int) : AsioState × Int :=
  if purpose = CURLSOCKTYPE_IPCXN ∧ (family = AF_INET ∨ family = AF_INET6) then
    let proto := if family = AF_INET then SockProto.v4 else SockProto.v6
    ({ s with socket_map := insertKV s.socket_map fresh_fd proto }, fresh_fd)
  else
    (s, CURL_SOCKET_BAD)

end curl_multi_asio

/-! ### The completion drain (`check_info`) -/

/-- One message drained from `curl_multi_info_read`: whether
`msg->msg == CURLMSG_DONE`, the finished handle's raw pointer, and the
transfer's result code. -/
structure CURLMsgRec where
  msg_done : Bool
  easy_handle : HandlePtr
  result : Nat
deriving DecidableEq, Repr

namespace curl_multi_asio

/-- One iteration of the `check_info` loop body for a drained message:
for a `CURLMSG_DONE` message, `remove_handle(msg->easy_handle)` (which
itself already erases the handle's `m_handler_map` entry, and has
undefined behavior — `none` — on an unknown pointer), then
`m_handler_map.find(_curl)`; if an entry is found its non-empty callback
is posted to the io_service with a success error code and the entry is
erased. Non-`DONE` messages are skipped. -/
def check_info_step (s : AsioState) (m : CURLMsgRec) : Option AsioState :=
  if m.msg_done then
    match remove_handle s m.easy_handle with
    | none => none
    | some (s', h) =>
        match lookupKV s'.handler_map h with
        | some handler =>
            let s'' :=
              match handler with
              | some hid => { s' with completions_posted := s'.completions_posted ++ [hid] }
              | none => s'
            some { s'' with handler_map := eraseKV s''.handler_map h }
        | none => some s'
  else
    some s

/-- `curl_multi_asio::check_info`: drains the given completion messages
in order, processing each with `check_info_step`; `none` when an
iteration hit undefined behavior. -/
def check_info (s : AsioState) (msgs : List CURLMsgRec) : Option AsioState :=
  msgs.foldl (fun acc m => acc.bind (fun st => check_info_step st m)) (some s)

end curl_multi_asio

/-! ## Helper lemmas -/

theorem lookupKV_insertKV {α β : Type} [DecidableEq α]
    (m : List (α × β)) (k : α) (v : β) :
    lookupKV (insertKV m k v) k = some v := by
  induction m with
  | nil => simp [insertKV, lookupKV]
  | cons p t ih =>
      obtain ⟨k', v'⟩ := p
      by_cases hk : k = k'
      · simp [insertKV, lookupKV, hk]
      · simp [insertKV, lookupKV, hk, ih]

/-! ## Claims -/

/-- C1: the spec scenario — add handle `H1 = 1` with callback `C1 = 10`;
the engine opens an IPv4 stream socket obtaining descriptor `D = 5`; the
subsequent socket action produces one `CURLMSG_DONE` message for `H1`
with a success code. The spec expects `C1` posted exactly once with a
no-error status and `H1` gone from the association map. The code removes
`H1` from the association map, but `remove_handle` erases the
`m_handler_map` entry before `check_info` looks it up, so the lookup
fails and `C1` is never posted: `completions_posted` is `[]`, not
`[10]`. -/
theorem check_info_done_message_drops_callback :
    curl_multi_asio.add_handle initAsio 1 (some 10) =
      Except.ok ⟨[1], [(1, some 10)], [], none, [], []⟩ ∧
    curl_multi_asio.open_socket_callback ⟨[1], [(1, some 10)], [], none, [], []⟩
        CURLSOCKTYPE_IPCXN AF_INET 5 =
      (⟨[1], [(1, some 10)], [(5, SockProto.v4)], none, [], []⟩, 5) ∧
    curl_multi_asio.check_info ⟨[1], [(1, some 10)], [(5, SockProto.v4)], none, [], []⟩
        [⟨true, 1, 0⟩] =
      some ⟨[], [], [(5, SockProto.v4)], none, [], []⟩ :=
  ⟨rfl, rfl, rfl⟩

/-- C2: on a pointer that is not a key of the association map,
`curl_multi::remove_handle` returns the null handle with the state
unchanged, as the spec requires; but `curl_multi_asio::remove_handle`
then calls `result->set_option(...)` on that null `shared_ptr` —
undefined behavior (modelled by `none`) instead of the tolerant null
return the spec demands. -/
theorem remove_handle_unknown_pointer_null_deref :
    curl_multi.remove_handle [] 1 = ([], none) ∧
    curl_multi_asio.remove_handle initAsio 1 = none :=
  ⟨rfl, rfl⟩

/-- C3 counterexample: adding handle `1` once succeeds, but adding it a
second time while it is still registered does not succeed and leave the
state unchanged as the claim states — the engine rejects the duplicate
registration and `add_handle` propagates the error. -/
theorem add_handle_duplicate_not_idempotent_cex :
    curl_multi_asio.add_handle initAsio 1 (some 10) =
      Except.ok ⟨[1], [(1, some 10)], [], none, [], []⟩ ∧
    curl_multi_asio.add_handle ⟨[1], [(1, some 10)], [], none, [], []⟩ 1 (some 10) =
      Except.error "curl_multi_add_handle: already added" :=
  ⟨rfl, rfl⟩

/-- C3 amended: submission is not idempotent — for every adapter state
and every handle already present in the association map, a second
`add_handle` fails with the engine's "already added" error (raised by
the association constructor before any map is touched, so the adapter
state is left unchanged). -/
theorem add_handle_duplicate_engine_error (s : AsioState) (h : HandlePtr)
    (c : Option HandlerId) (hmem : h ∈ s.associations) :
    curl_multi_asio.add_handle s h c =
      Except.error "curl_multi_add_handle: already added" := by
  unfold curl_multi_asio.add_handle curl_multi.add_handle
    curl_multi.curl_multi_add_handle_engine
  simp [hmem]

/-- Witness for `add_handle_duplicate_engine_error` at a state with
handle `1` registered. -/
theorem add_handle_duplicate_engine_error_witness :
    1 ∈ (⟨[1], [(1, some 10)], [], none, [], []⟩ : AsioState).associations ∧
    curl_multi_asio.add_handle ⟨[1], [(1, some 10)], [], none, [], []⟩ 1 (some 10) =
      Except.error "curl_multi_add_handle: already added" :=
  ⟨by decide,
    add_handle_duplicate_engine_error ⟨[1], [(1, some 10)], [], none, [], []⟩ 1
      (some 10) (by decide)⟩

/-- C4: `static_timer_callback` with a non-positive timeout posts the
progress run onto the strand (the inline engine-call trace is empty —
nothing runs inline) and leaves no timer outstanding; with a positive
`t` it cancels any pending timer and arms the timer for `t`
milliseconds. The progress run triggered either way (`timer_callback`
with a success code) is `socket_action(CURL_SOCKET_TIMEOUT, 0, …)`
followed by the completion drain. -/
theorem static_timer_callback_schedules_progress (s : AsioState) (t : Int) :
    curl_multi_asio.static_timer_callback s t =
      (if t > 0 then
        ({ s with pending_timer := some t }, [])
      else
        ({ s with pending_timer := none,
                  strand_tasks := s.strand_tasks ++ [StrandTask.progress] }, [])) ∧
    curl_multi_asio.timer_callback false =
      [EngineCall.socketAction CURL_SOCKET_TIMEOUT 0, EngineCall.drainInfo] := by
  refine ⟨?_, rfl⟩
  unfold curl_multi_asio.static_timer_callback
  split <;> rfl

/-- C9: every invocation of `static_timer_callback` cancels the pending
timer first — whatever wait was outstanding in `s`, afterwards the
outstanding wait is exactly `some t` for a positive `t` and `none`
otherwise, so a previously armed longer timeout never survives a
non-positive (immediate) request; and a cancelled wait invokes
`timer_callback` with a failure code, which performs no engine call. -/
theorem timer_arm_cancels_pending_timer (s : AsioState) (t : Int) :
    ((curl_multi_asio.static_timer_callback s t).1.pending_timer =
      if t > 0 then some t else none) ∧
    curl_multi_asio.timer_callback true = [] := by
  refine ⟨?_, rfl⟩
  unfold curl_multi_asio.static_timer_callback
  split <;> rfl

/-- C5: the spec expects `reset` followed by successful appends of
`l1…ln` to leave a chain whose traversal from the exposed raw pointer is
exactly `l1…ln`. The code delivers that only up to `n = 1`: the second
append calls `curl_slist_append` on the non-empty chain, gets the same
head pointer back, and `m_slist.reset(new_slist)` (with no prior
`release()`) runs the deleter on that very pointer — the just-extended
chain `["a", "b"]` is freed and the stored pointer dangles, so no live
chain with traversal `["a", "b"]` exists and a third append would read
freed memory. -/
theorem reset_then_appends_chain_freed :
    curl_list.reset (SlistState.live []) = some (SlistState.live []) ∧
    curl_list.append true (SlistState.live []) "a" =
      some (SlistState.live ["a"], false) ∧
    curl_list.append true (SlistState.live ["a"]) "b" =
      some (SlistState.dangling, false) ∧
    curl_list.append true SlistState.dangling "c" = none :=
  ⟨rfl, rfl, rfl, rfl⟩

/-- C6: the failure half of the claim holds — on allocation failure the
error is raised and the chain is untouched — and so does the success
half on an empty chain, where the exposed pointer becomes the fresh
head. But on a successful append to any non-empty chain, `new_slist`
equals the stored head, so `m_slist.reset(new_slist)` frees the
just-extended chain and the exposed raw pointer dangles instead of
referring to the new head of a live chain, refuting "on success the
list's exposed raw pointer refers to the new head". -/
theorem append_success_nonempty_frees_chain :
    curl_list.append false (SlistState.live ["a"]) "b" =
      some (SlistState.live ["a"], true) ∧
    curl_list.append false (SlistState.live []) "a" =
      some (SlistState.live [], true) ∧
    curl_list.append true (SlistState.live []) "a" =
      some (SlistState.live ["a"], false) ∧
    curl_list.append true (SlistState.live ["a"]) "b" =
      some (SlistState.dangling, false) :=
  ⟨rfl, rfl, rfl, rfl⟩

/-- C7 counterexample: when the engine reports the content type as the
empty string (a non-`NULL` `char*` of length 0), `get_content_type`
returns the empty string even though the engine did report a content
type, so "returns the empty string exactly when the engine reports no
content type" fails at this input. -/
theorem get_content_type_empty_string_cex :
    ¬ ((curl.get_content_type ⟨200, 0, 0, some ""⟩ = Except.ok "") ↔
        (⟨200, 0, 0, some ""⟩ : EngineInfo).content_type = none) := by
  simp [curl.get_content_type, throw_if_curl_error, curl_easy_getinfo_code]

/-- C7 amended: the outcome accessors never raise an error for any
engine info state: `get_response_code` always returns the engine's
value, both content-length accessors succeed and return `-1` exactly
when the engine reports a negative (unknown/unbounded) length, and
`get_content_type` succeeds and returns the empty string exactly when
the engine reports no content type or an empty one. -/
theorem outcome_accessors_total (info : EngineInfo) :
    (curl.get_response_code info = Except.ok info.response_code) ∧
    ((curl.get_content_length_download info).isOk = true) ∧
    ((curl.get_content_length_upload info).isOk = true) ∧
    ((curl.get_content_type info).isOk = true) ∧
    ((curl.get_content_length_download info = Except.ok (-1)) ↔
      info.content_length_download < 0) ∧
    ((curl.get_content_length_upload info = Except.ok (-1)) ↔
      info.content_length_upload < 0) ∧
    ((curl.get_content_type info = Except.ok "") ↔
      (info.content_type = none ∨ info.content_type = some "")) := by
  obtain ⟨rc, cld, clu, ct⟩ := info
  refine ⟨rfl, ?_, ?_, ?_, ?_, ?_, ?_⟩
  · by_cases h : cld ≥ 0 <;>
      simp [curl.get_content_length_download, throw_if_curl_error,
        curl_easy_getinfo_code, Except.isOk, Except.toBool, h]
  · by_cases h : clu ≥ 0 <;>
      simp [curl.get_content_length_upload, throw_if_curl_error,
        curl_easy_getinfo_code, Except.isOk, Except.toBool, h]
  · cases ct <;>
      simp [curl.get_content_type, throw_if_curl_error,
        curl_easy_getinfo_code, Except.isOk, Except.toBool]
  · by_cases h : cld ≥ 0 <;>
      simp [curl.get_content_length_download, throw_if_curl_error,
        curl_easy_getinfo_code, h] <;> omega
  · by_cases h : clu ≥ 0 <;>
      simp [curl.get_content_length_upload, throw_if_curl_error,
        curl_easy_getinfo_code, h] <;> omega
  · cases ct <;>
      simp [curl.get_content_type, throw_if_curl_error, curl_easy_getinfo_code]

/-- C8: for a stream-connection purpose with family IPv4 or IPv6, the
open-socket hook creates a reactor socket of that family, records it in
the socket table under the fresh native descriptor (looking that
descriptor up afterwards finds the socket) and returns the descriptor,
touching nothing else in the state; for any other purpose or family it
returns `CURL_SOCKET_BAD` and the state — in particular the socket
table — is unchanged. -/
theorem open_socket_callback_behavior (s : AsioState) (purpose family : Nat)
    (fd : Int) :
    if purpose = CURLSOCKTYPE_IPCXN ∧ (family = AF_INET ∨ family = AF_INET6) then
      (curl_multi_asio.open_socket_callback s purpose family fd).2 = fd ∧
      (curl_multi_asio.open_socket_callback s purpose family fd).1 =
        { s with socket_map := (insertKV s.socket_map fd
            (if family = AF_INET then SockProto.v4 else SockProto.v6)) } ∧
      lookupKV (curl_multi_asio.open_socket_callback s purpose family fd).1.socket_map
          fd =
        some (if family = AF_INET then SockProto.v4 else SockProto.v6)
    else
      curl_multi_asio.open_socket_callback s purpose family fd =
        (s, CURL_SOCKET_BAD) := by
  by_cases h : purpose = CURLSOCKTYPE_IPCXN ∧ (family = AF_INET ∨ family = AF_INET6)
  · simp only [h, if_true]
    refine ⟨?_, ?_, ?_⟩ <;>
      simp [curl_multi_asio.open_socket_callback, h, lookupKV_insertKV]
  · simp only [h, if_false]
    simp [curl_multi_asio.open_socket_callback, h]

/-- C10: `clear` empties the association map, the handler map and the
socket table, and posts no stored completion callback
(`completions_posted` is untouched); the task posted by `async_clear`
runs exactly `clear` and then only the `onCleared` handler. -/
theorem clear_empties_all_tables (s : AsioState) (h : Option HandlerId) :
    (curl_multi_asio.clear s).associations = [] ∧
    (curl_multi_asio.clear s).handler_map = [] ∧
    (curl_multi_asio.clear s).socket_map = [] ∧
    (curl_multi_asio.clear s).completions_posted = s.completions_posted ∧
    curl_multi_asio.async_clear s h =
      { s with strand_tasks := s.strand_tasks ++ [StrandTask.runClear h] } ∧
    curl_multi_asio.run_clear_task s h = (curl_multi_asio.clear s, h) :=
  ⟨rfl, rfl, rfl, rfl, rfl, rfl⟩

end Freelan
